import Mathlib

/-!
Shallow embedding of the screencast session/cast lifecycle coordinator of
xdg-desktop-portal-luminous (src/screencast.rs), together with theorems
settling the behavioural claims about it.

The embedding models:
- the two shared registries (`SESSIONS`, `CAST_SESSIONS`) as lists inside an
  explicit `PState` value,
- the RPC operations `select_sources` and `start`, and the registry helpers
  `append_cast_session` and `remove_cast_session`, as pure state-passing
  functions,
- external collaborators (output enumeration, interactive region selection,
  capture-worker start) as an environment record `StartEnv` of outcomes,
- side effects on the capture worker (start / stop invocations) as an event
  trace,
- the interleaving of two concurrent `start` calls as a small-step task
  machine whose atomic steps are exactly the lock-delimited sections of the
  source.

Types whose definitions live in repository files other than screencast.rs
(session.rs, pipewirethread.rs, the crate-root `PortalResponse`) are modelled
from the spec, as marked in their doc comments.
-/

namespace Screencast

/-- Modelled from the spec: `session.rs` is not in the sources.
"session_type (enumeration: ScreenCast, other variants out of this core's
scope)". -/
inductive SessionType where
  | ScreenCast
  | Other
  deriving DecidableEq, Repr

/-- Modelled from the spec: `session.rs` is not in the sources.
"cursor_mode (enumeration: Hidden, Embedded, Metadata — a bit-set, multiple
allowed)"; represented as the three membership flags of the bit-set. -/
structure CursorMode where
  hidden : Bool
  embedded : Bool
  metadata : Bool
  deriving DecidableEq, Repr

/-- Modelled from the spec: `session.rs` is not in the sources.
The session's cursor mode decides "whether the worker should draw the
cursor"; the worker draws the cursor exactly when the mode requests it
composited into the stream (Embedded). -/
def CursorMode.show_cursor (m : CursorMode) : Bool :=
  m.embedded

/-- Modelled from the spec: `session.rs` is not in the sources.
"source_types (bit-set over \x7bMonitor, Window, Virtual\x7d)". -/
structure SourceTypes where
  monitor : Bool
  window : Bool
  virtual_ : Bool
  deriving DecidableEq, Repr

/-- Modelled from the spec: `session.rs` is not in the sources.
Session Entity attributes from the spec data model, §3. -/
structure Session where
  handle_path : String
  session_type : SessionType
  cursor_mode : CursorMode
  source_types : SourceTypes
  multiple : Bool
  persist_mode : Nat
  restore_token : Option String
  deriving DecidableEq, Repr

/-- Options payload of `select_sources` (screencast.rs, `SelectSourcesOptions`). -/
structure SelectSourcesOptions where
  types : Option SourceTypes
  multiple : Option Bool
  cursor_mode : Option CursorMode
  restore_token : Option String
  persist_mode : Option Nat
  deriving DecidableEq, Repr

/-- Modelled from the spec: `session.rs` is not in the sources.
`Session::set_screencast_options`: "If found, overwrite the mutable
preference fields in place" with the supplied selection options. -/
def Session.set_screencast_options (s : Session) (o : SelectSourcesOptions) : Session :=
  { s with
    source_types := o.types.getD s.source_types
    multiple := o.multiple.getD s.multiple
    cursor_mode := o.cursor_mode.getD s.cursor_mode
    restore_token := o.restore_token
    persist_mode := o.persist_mode.getD s.persist_mode }

/-- Position of an enumerated output, `output.dimensions` (libwayshot). -/
structure OutputDimensions where
  x : Int
  y : Int
  deriving DecidableEq, Repr

/-- Pixel mode of an enumerated output, `output.mode` (libwayshot). -/
structure OutputMode where
  width : Int
  height : Int
  deriving DecidableEq, Repr

/-- One enumerated output as consumed by `start` (libwayshot `OutputInfo`):
top-left position, pixel mode, and an opaque reference to the wl_output. -/
structure Output where
  dimensions : OutputDimensions
  mode : OutputMode
  wl_output : Nat
  deriving DecidableEq, Repr

/-- The selector's result as consumed by `start`:
`info.selected_screen_info().get_position()` (libwaysip `AreaInfo`). -/
structure AreaInfo where
  pos : Int × Int
  deriving DecidableEq, Repr

/-- Capture worker handle (`pipewirethread.rs` `ScreencastThread`, not in the
sources; its surface per the spec is `node_id() -> integer` and `stop()`).
The worker is opaque to the core beyond its node id. -/
structure ScreencastThread where
  node_id : Nat
  deriving DecidableEq, Repr

/-- `StreamProperties` of screencast.rs: all fields optional. -/
structure StreamProperties where
  id : Option String := none
  position : Option (Int × Int) := none
  size : Option (Int × Int) := none
  source_type : Option SourceTypes := none
  deriving DecidableEq, Repr

/-- `Stream(u32, StreamProperties)` of screencast.rs. -/
structure Stream where
  node_id : Nat
  properties : StreamProperties
  deriving DecidableEq, Repr

/-- `StartReturnValue` of screencast.rs; `..Default::default()` gives
`persist_mode = 0` and `restore_token = None`. -/
structure StartReturnValue where
  streams : List Stream := []
  persist_mode : Nat := 0
  restore_token : Option String := none
  deriving DecidableEq, Repr

/-- Modelled from the spec: the crate-root `PortalResponse` type is not in the
sources. screencast.rs constructs exactly two of its variants: `Success`
(carrying a payload) and `Other` (the benign "not applicable" outcome). -/
inductive PortalResponse (α : Type) where
  | Success (v : α)
  | Other
  deriving DecidableEq, Repr

/-- Outcome of one RPC method body: a `zbus::fdo::Result` value — either a
transport-level error (`Err(zbus::Error::Failure(msg))`) or an `Ok` portal
response — or a process panic (a `.unwrap()` on an `Err`). -/
inductive RpcOutcome (α : Type) where
  | panicked
  | err (msg : String)
  | resp (r : PortalResponse α)
  deriving DecidableEq, Repr

/-- `CastSessionData = (String, ScreencastThread)` of screencast.rs. -/
abbrev CastSessionData := String × ScreencastThread

/-- The shared mutable state: the session registry `SESSIONS` (session.rs,
a `Vec<Session>`) and the cast registry `CAST_SESSIONS` (screencast.rs,
a `Vec<CastSessionData>`). -/
structure PState where
  sessions : List Session
  castSessions : List CastSessionData
  deriving DecidableEq, Repr

/-- Observable side effects on the external capture worker. -/
inductive Event where
  | castStart (show_cursor : Bool) (width height : Nat) (wl_output : Nat)
  | workerStop (t : ScreencastThread)
  | entryRemoved (handle : String)
  deriving DecidableEq, Repr

/-- `append_cast_session` of screencast.rs: `sessions.push(session)` under the
cast-registry lock. -/
def append_cast_session (st : PState) (s : CastSessionData) : PState :=
  { st with castSessions := st.castSessions ++ [s] }

/-- The body of `remove_cast_session` on the locked vector: find the position
of the first entry whose handle equals `path`; if none, return unchanged;
otherwise call `stop()` on that entry's worker and then `remove` the entry.
The trace records the worker-stop call and the removal, in source order. -/
def removeCastFrom (path : String) :
    List CastSessionData → List CastSessionData × List Event
  | [] => ([], [])
  | s :: rest =>
    if s.1 == path then
      (rest, [Event.workerStop s.2, Event.entryRemoved path])
    else
      let (rest', tr) := removeCastFrom path rest
      (s :: rest', tr)

/-- `remove_cast_session` of screencast.rs: the whole body runs under a single
acquisition of the cast-registry lock, so other readers observe only the
pre-state or the returned post-state. -/
def remove_cast_session (st : PState) (path : String) : PState × List Event :=
  let (cs, tr) := removeCastFrom path st.castSessions
  ({ st with castSessions := cs }, tr)

/-- Number of cast bindings recorded for a handle. -/
def bindingCount (st : PState) (handle : String) : Nat :=
  (st.castSessions.filter (fun s => s.1 == handle)).length

/-- `select_sources` body on the locked session list: find the first session
with the given handle, overwrite its options in place; `none` when absent. -/
def setOptionsFirst (handle : String) (options : SelectSourcesOptions) :
    List Session → Option (List Session)
  | [] => none
  | s :: rest =>
    if s.handle_path == handle then
      some (s.set_screencast_options options :: rest)
    else
      (setOptionsFirst handle options rest).map (s :: ·)

/-- `select_sources` of screencast.rs: look up the session by handle; absent ⇒
`Ok(PortalResponse::Other)` and no mutation; present ⇒ overwrite its
screencast options and return `Ok(PortalResponse::Success(HashMap::new()))`
(an empty map, modelled as the empty association list). -/
def select_sources (st : PState) (handle : String) (options : SelectSourcesOptions) :
    RpcOutcome (List (String × String)) × PState :=
  match setOptionsFirst handle options st.sessions with
  | none => (.resp .Other, st)
  | some sessions' => (.resp (.Success []), { st with sessions := sessions' })

/-- Environment of one `start` call: the outcomes of the three external
collaborator calls it makes, in source order — `WayshotConnection::new()`
followed by `get_all_outputs()` (an `Err` here is `.unwrap()`ed, i.e. a
panic), `libwaysip::get_area(WaySipKind::Screen)`, and
`ScreencastThread::start_cast`. -/
structure StartEnv where
  connection : Except String (List Output)
  get_area : Except String (Option AreaInfo)
  start_cast : Except String ScreencastThread

/-- Lines 166–176 of screencast.rs: the idempotency check, one acquisition of
the cast-registry lock. If a binding for the handle exists, the method
returns success carrying that binding's current `node_id`. -/
def startCastCheck (st : PState) (handle : String) : Option StartReturnValue :=
  match st.castSessions.find? (fun session => session.1 == handle) with
  | some session =>
    some { streams := [⟨session.2.node_id, {}⟩], persist_mode := 0, restore_token := none }
  | none => none

/-- Lines 178–191 of screencast.rs: the session lookup, one acquisition of the
session-registry lock. Returns the cloned session when it exists and its
`session_type` is ScreenCast; `none` makes `start` answer
`PortalResponse::Other`. -/
def startSessionCheck (st : PState) (handle : String) : Option Session :=
  match st.sessions.find? (fun s => s.handle_path == handle) with
  | none => none
  | some s => if s.session_type = SessionType.ScreenCast then some s else none

/-- The output matcher of `start` (lines 205–210): the first enumerated output
whose reported position equals the selected coordinate. -/
def outputMatcher (outputs : List Output) (x y : Int) : Option Output :=
  outputs.find? (fun output => output.dimensions.x == x && output.dimensions.y == y)

/-- The lock-free tail of `start` (lines 193–229), given the session snapshot:
unwrap the wayland connection (panicking on failure), run the interactive
selector, match the selected position to an output, start the capture
worker, and compute the state-updating insertion if any. Returns the RPC
outcome, the binding to append (if the worker started), and the worker
events. The `u32` casts of the output's pixel mode are the Rust `as u32`
wrap. -/
def startBlocking (env : StartEnv) (sess : Session) (handle : String) :
    RpcOutcome StartReturnValue × Option CastSessionData × List Event :=
  match env.connection with
  | .error _ => (.panicked, none, [])
  | .ok outputs =>
    match env.get_area with
    | .error e => (.err ("wayland error, " ++ e), none, [])
    | .ok none => (.err "You cancel it", none, [])
    | .ok (some info) =>
      let (x, y) := info.pos
      match outputMatcher outputs x y with
      | none => (.resp .Other, none, [])
      | some output =>
        let ev := Event.castStart sess.cursor_mode.show_cursor
          ((output.mode.width % (2 ^ 32 : Int)).toNat)
          ((output.mode.height % (2 ^ 32 : Int)).toNat)
          output.wl_output
        match env.start_cast with
        | .error e =>
          (.err ("cannot start pipewire stream, error: " ++ e), none, [ev])
        | .ok cast_thread =>
          (.resp (.Success { streams := [⟨cast_thread.node_id, {}⟩],
                             persist_mode := 0, restore_token := none }),
           some (handle, cast_thread), [ev])

/-- `start` of screencast.rs, run to completion with no interleaving: the
idempotency check, the session check, the lock-free blocking tail, and —
when the worker started — `append_cast_session` of the new binding.
Returns the RPC outcome, the final state, and the worker-event trace. -/
def start (env : StartEnv) (st : PState) (handle : String) :
    RpcOutcome StartReturnValue × PState × List Event :=
  match startCastCheck st handle with
  | some r => (.resp (.Success r), st, [])
  | none =>
    match startSessionCheck st handle with
    | none => (.resp .Other, st, [])
    | some sess =>
      match startBlocking env sess handle with
      | (outcome, none, tr) => (outcome, st, tr)
      | (outcome, some binding, tr) => (outcome, append_cast_session st binding, tr)

/-! ### Interleaving semantics for concurrent `start` calls

The source's `start` holds no lock across its blocking tail, so two
concurrent `start` calls interleave at the boundaries of the lock-delimited
sections: the cast-registry idempotency check, the session-registry lookup,
the lock-free blocking tail, and the cast-registry append. Each of those
sections is one atomic step of a task below; a schedule picks which task
steps next. -/

/-- Program counter of one in-flight `start` call: each constructor is one
atomic (single-lock-acquisition or lock-free) section of the method. -/
inductive Phase where
  | castCheckP
  | sessionCheckP
  | blockingP (sess : Session)
  | appendP (binding : CastSessionData) (r : StartReturnValue) (tr : List Event)
  | doneP (outcome : RpcOutcome StartReturnValue) (tr : List Event)
  deriving DecidableEq, Repr

/-- One in-flight `start` call: its session handle and its current phase. -/
structure Task where
  handle : String
  phase : Phase
  deriving DecidableEq, Repr

/-- One atomic step of an in-flight `start` call, mirroring the corresponding
section of the source exactly as `start` does. -/
def taskStep (env : StartEnv) (st : PState) (t : Task) : PState × Task :=
  match t.phase with
  | .castCheckP =>
    match startCastCheck st t.handle with
    | some r => (st, { t with phase := .doneP (.resp (.Success r)) [] })
    | none => (st, { t with phase := .sessionCheckP })
  | .sessionCheckP =>
    match startSessionCheck st t.handle with
    | none => (st, { t with phase := .doneP (.resp .Other) [] })
    | some sess => (st, { t with phase := .blockingP sess })
  | .blockingP sess =>
    match startBlocking env sess t.handle with
    | (outcome, none, tr) => (st, { t with phase := .doneP outcome tr })
    | (.resp (.Success r), some binding, tr) =>
      (st, { t with phase := .appendP binding r tr })
    | (outcome, some _, tr) => (st, { t with phase := .doneP outcome tr })
  | .appendP binding r tr =>
    (append_cast_session st binding,
     { t with phase := .doneP (.resp (.Success r)) tr })
  | .doneP _ _ => (st, t)

/-- Run two in-flight `start` calls under a schedule: `true` steps the first
task, `false` the second. -/
def runTwo (env : StartEnv) :
    List Bool → PState × Task × Task → PState × Task × Task
  | [], c => c
  | b :: rest, (st, t1, t2) =>
    if b then
      let (st', t1') := taskStep env st t1
      runTwo env rest (st', t1', t2)
    else
      let (st', t2') := taskStep env st t2
      runTwo env rest (st', t1, t2')

/-- A fresh `start` task for a handle. -/
def Task.fresh (handle : String) : Task :=
  { handle := handle, phase := .castCheckP }

/-! ### Concrete fixtures used by witnesses and counterexamples -/

/-- A cursor mode requesting the cursor embedded in the stream. -/
def exCursor : CursorMode := { hidden := false, embedded := true, metadata := false }

/-- A screencast session registered under handle "s". -/
def exSession : Session :=
  { handle_path := "s", session_type := .ScreenCast, cursor_mode := exCursor,
    source_types := { monitor := true, window := false, virtual_ := false },
    multiple := false, persist_mode := 0, restore_token := none }

/-- An output at position (0, 0), 1920×1080. -/
def exOutput0 : Output :=
  { dimensions := { x := 0, y := 0 }, mode := { width := 1920, height := 1080 },
    wl_output := 0 }

/-- An output at position (1920, 0), 1920×1080. -/
def exOutput1 : Output :=
  { dimensions := { x := 1920, y := 0 }, mode := { width := 1920, height := 1080 },
    wl_output := 1 }

/-- Initial state: the session registered, no cast binding. -/
def exState : PState := { sessions := [exSession], castSessions := [] }

/-- Environment in which every external collaborator succeeds: one output at
the origin, the user selects the screen at (0, 0), the worker starts with
node id 42. -/
def envOk : StartEnv :=
  { connection := .ok [exOutput0]
    get_area := .ok (some { pos := (0, 0) })
    start_cast := .ok { node_id := 42 } }

/-- State in which handle "s" already has a cast binding with node id 42. -/
def exBoundState : PState :=
  { sessions := [exSession], castSessions := [("s", { node_id := 42 })] }

/-- Whether an RPC outcome is a transport-level error (`Err(...)`). -/
def RpcOutcome.isTransportErr {α : Type} : RpcOutcome α → Bool
  | .err _ => true
  | _ => false

/-- Whether an RPC outcome is a protocol-level portal response (`Ok(...)`). -/
def RpcOutcome.isProtocolResp {α : Type} : RpcOutcome α → Bool
  | .resp _ => true
  | _ => false

/-- "The worker's stop is invoked only after the entry has been removed":
some removal event for the handle strictly precedes some stop event of the
worker in the trace. -/
def stopAfterRemoval (tr : List Event) (handle : String) (t : ScreencastThread) : Prop :=
  ∃ i j, i < j ∧ tr.get? i = some (.entryRemoved handle) ∧ tr.get? j = some (.workerStop t)

/-- Whether an event is a worker-stop invocation. -/
def Event.isStop : Event → Bool
  | .workerStop _ => true
  | _ => false

/-! ### Helper lemmas -/

theorem find?_first_decomp {α : Type} (p : α → Bool) :
    ∀ (l : List α) (a : α), l.find? p = some a →
      ∃ l1 l2, l = l1 ++ a :: l2 ∧ (∀ b ∈ l1, p b = false) ∧ p a = true := by
  intro l
  induction l with
  | nil => intro a h; simp [List.find?] at h
  | cons x rest ih =>
    intro a h
    by_cases hx : p x
    · rw [List.find?_cons_of_pos _ hx] at h
      refine ⟨[], rest, ?_, ?_, ?_⟩ <;> simp_all
    · rw [List.find?_cons_of_neg _ (by simpa using hx)] at h
      obtain ⟨l1, l2, hl, hfalse, hp⟩ := ih a h
      refine ⟨x :: l1, l2, by simp [hl], ?_, hp⟩
      intro b hb
      rcases List.mem_cons.mp hb with hb | hb
      · subst hb; simpa using hx
      · exact hfalse b hb

theorem removeCastFrom_skip (path : String) (l1 : List CastSessionData)
    (h1 : ∀ s ∈ l1, (s.1 == path) = false) (e : CastSessionData)
    (he : (e.1 == path) = true) (l2 : List CastSessionData) :
    removeCastFrom path (l1 ++ e :: l2) =
      (l1 ++ l2, [Event.workerStop e.2, Event.entryRemoved path]) := by
  induction l1 with
  | nil => simp [removeCastFrom, he]
  | cons s rest ih =>
    have hs : (s.1 == path) = false := h1 s (by simp)
    have ih' := ih (fun t ht => h1 t (by simp [ht]))
    simp [removeCastFrom, hs, ih']

theorem removeCastFrom_of_find? (path : String) (l : List CastSessionData)
    (e : CastSessionData) (h : l.find? (fun s => s.1 == path) = some e) :
    ∃ l1 l2, l = l1 ++ e :: l2 ∧ (∀ s ∈ l1, (s.1 == path) = false) ∧
      (e.1 == path) = true ∧
      removeCastFrom path l = (l1 ++ l2, [Event.workerStop e.2, Event.entryRemoved path]) := by
  obtain ⟨l1, l2, hl, hfalse, hp⟩ := find?_first_decomp (fun s => s.1 == path) l e h
  exact ⟨l1, l2, hl, hfalse, hp, by rw [hl]; exact removeCastFrom_skip path l1 hfalse e hp l2⟩

theorem removeCastFrom_not_found (path : String) :
    ∀ l : List CastSessionData, (∀ s ∈ l, (s.1 == path) = false) →
      removeCastFrom path l = (l, []) := by
  intro l
  induction l with
  | nil => intro _; rfl
  | cons s rest ih =>
    intro h
    have hs : (s.1 == path) = false := h s (by simp)
    have := ih (fun t ht => h t (by simp [ht]))
    simp [removeCastFrom, hs, this]

theorem setOptionsFirst_not_found (handle : String) (options : SelectSourcesOptions) :
    ∀ l : List Session, (∀ s ∈ l, (s.handle_path == handle) = false) →
      setOptionsFirst handle options l = none := by
  intro l
  induction l with
  | nil => intro _; rfl
  | cons s rest ih =>
    intro h
    have hs : (s.handle_path == handle) = false := h s (by simp)
    have := ih (fun t ht => h t (by simp [ht]))
    simp [setOptionsFirst, hs, this]

theorem startBlocking_binding_fst (env : StartEnv) (sess : Session) (handle : String)
    (outcome : RpcOutcome StartReturnValue) (b : CastSessionData) (tr : List Event)
    (h : startBlocking env sess handle = (outcome, some b, tr)) : b.1 = handle := by
  rcases hc : env.connection with e | outputs
  · simp [startBlocking, hc] at h
  rcases ha : env.get_area with e | oinfo
  · simp [startBlocking, hc, ha] at h
  rcases oinfo with _ | info
  · simp [startBlocking, hc, ha] at h
  rcases hm : outputMatcher outputs info.pos.1 info.pos.2 with _ | output
  · simp [startBlocking, hc, ha, hm] at h
  rcases hs : env.start_cast with e | ct
  · simp [startBlocking, hc, ha, hm, hs] at h
  · simp [startBlocking, hc, ha, hm, hs, Prod.ext_iff] at h
    obtain ⟨-, hb, -⟩ := h
    simp [← hb]

theorem startBlocking_no_panic (env : StartEnv) (sess : Session) (handle : String)
    (outputs : List Output) (hc : env.connection = .ok outputs) :
    ∀ b tr, startBlocking env sess handle ≠ (.panicked, b, tr) := by
  intro b tr h
  rcases ha : env.get_area with e | oinfo
  · simp [startBlocking, hc, ha] at h
  rcases oinfo with _ | info
  · simp [startBlocking, hc, ha] at h
  rcases hm : outputMatcher outputs info.pos.1 info.pos.2 with _ | output
  · simp [startBlocking, hc, ha, hm] at h
  rcases hs : env.start_cast with e | ct
  · simp [startBlocking, hc, ha, hm, hs] at h
  · simp [startBlocking, hc, ha, hm, hs] at h

theorem startBlocking_success_shape (env : StartEnv) (sess : Session) (handle : String)
    (r : StartReturnValue) (b : Option CastSessionData) (tr : List Event)
    (h : startBlocking env sess handle = (.resp (.Success r), b, tr)) :
    ∃ ct : ScreencastThread,
      r = { streams := [⟨ct.node_id, {}⟩], persist_mode := 0, restore_token := none } := by
  rcases hc : env.connection with e | outputs
  · simp [startBlocking, hc] at h
  rcases ha : env.get_area with e | oinfo
  · simp [startBlocking, hc, ha] at h
  rcases oinfo with _ | info
  · simp [startBlocking, hc, ha] at h
  rcases hm : outputMatcher outputs info.pos.1 info.pos.2 with _ | output
  · simp [startBlocking, hc, ha, hm] at h
  rcases hs : env.start_cast with e | ct
  · simp [startBlocking, hc, ha, hm, hs] at h
  · refine ⟨ct, ?_⟩
    have hval : startBlocking env sess handle =
        (.resp (.Success { streams := [⟨ct.node_id, {}⟩], persist_mode := 0,
                           restore_token := none }),
         some (handle, ct),
         [Event.castStart sess.cursor_mode.show_cursor
            ((output.mode.width % (2 ^ 32 : Int)).toNat)
            ((output.mode.height % (2 ^ 32 : Int)).toNat) output.wl_output]) := by
      simp [startBlocking, hc, ha, hm, hs]
    rw [hval] at h
    obtain ⟨h1, -, -⟩ := Prod.mk.injEq .. ▸ h
    cases h1
    exact rfl

theorem startCastCheck_shape (st : PState) (handle : String) (r : StartReturnValue)
    (h : startCastCheck st handle = some r) :
    ∃ e : CastSessionData,
      st.castSessions.find? (fun s => s.1 == handle) = some e ∧
      r = { streams := [⟨e.2.node_id, {}⟩], persist_mode := 0, restore_token := none } := by
  rcases hfind : st.castSessions.find? (fun s => s.1 == handle) with _ | e
  · unfold startCastCheck at h
    rw [hfind] at h
    exact absurd h (by simp)
  · unfold startCastCheck at h
    rw [hfind] at h
    exact ⟨e, hfind, (Option.some.inj h).symm⟩

theorem bindingCount_append (st : PState) (b : CastSessionData) (g : String) :
    bindingCount (append_cast_session st b) g =
      bindingCount st g + (if b.1 == g then 1 else 0) := by
  simp only [bindingCount, append_cast_session, List.filter_append, List.length_append]
  congr 1
  by_cases hb : (b.1 == g) = true <;> simp [List.filter, hb]

/-- Environment in which the interactive selector reports that the user
cancelled (`Ok(None)`). -/
def envCancel : StartEnv :=
  { connection := .ok [exOutput0]
    get_area := .ok none
    start_cast := .ok { node_id := 42 } }

/-- Environment in which creating the wayland connection for output
enumeration fails. -/
def envConnFail : StartEnv :=
  { connection := .error "connection refused"
    get_area := .ok (some { pos := (0, 0) })
    start_cast := .ok { node_id := 42 } }

/-- Selection options carrying an explicit persist mode and restore token. -/
def exOptions : SelectSourcesOptions :=
  { types := none, multiple := none, cursor_mode := none,
    restore_token := some "tok", persist_mode := some 2 }

/-- C2: start is idempotent on an already-bound session: when the cast
registry holds a binding for the handle, start returns success carrying that
binding's existing node_id, leaves the state (both registries) unchanged,
performs no worker action, and a second start on the resulting state returns
the same node_id again. -/
theorem c2_start_idempotent_on_bound_session (env env' : StartEnv) (st : PState)
    (handle : String) (e : CastSessionData)
    (hfind : st.castSessions.find? (fun s => s.1 == handle) = some e) :
    start env st handle =
      (.resp (.Success { streams := [⟨e.2.node_id, {}⟩], persist_mode := 0,
                         restore_token := none }), st, [])
    ∧ start env' (start env st handle).2.1 handle =
      (.resp (.Success { streams := [⟨e.2.node_id, {}⟩], persist_mode := 0,
                         restore_token := none }), st, []) := by
  have hcheck : startCastCheck st handle =
      some { streams := [⟨e.2.node_id, {}⟩], persist_mode := 0, restore_token := none } := by
    unfold startCastCheck
    rw [hfind]
  have h1 : start env st handle =
      (.resp (.Success { streams := [⟨e.2.node_id, {}⟩], persist_mode := 0,
                         restore_token := none }), st, []) := by
    unfold start
    rw [hcheck]
  refine ⟨h1, ?_⟩
  rw [h1]
  unfold start
  rw [hcheck]

/-- C2 witness: on a state whose cast registry binds "s" to node id 42, both
the first and the second start return success with node id 42 and leave the
state unchanged. -/
theorem c2_start_idempotent_on_bound_session_witness :
    start envOk exBoundState "s" =
      (.resp (.Success { streams := [⟨42, {}⟩], persist_mode := 0,
                         restore_token := none }), exBoundState, [])
    ∧ start envOk (start envOk exBoundState "s").2.1 "s" =
      (.resp (.Success { streams := [⟨42, {}⟩], persist_mode := 0,
                         restore_token := none }), exBoundState, []) :=
  c2_start_idempotent_on_bound_session envOk envOk exBoundState "s"
    ("s", { node_id := 42 }) rfl

/-- C4 counterexample: when the selector returns successfully with no region
(user cancellation), start returns `Err(zbus::Error::Failure("You cancel
it"))` — a transport-level error, not a protocol-level response — refuting
the claim that cancellation is surfaced as a protocol-level response and
never as a transport error. -/
theorem c4_cancellation_counterexample :
    start envCancel exState "s" = (.err "You cancel it", exState, [])
    ∧ (start envCancel exState "s").1.isTransportErr = true
    ∧ (start envCancel exState "s").1.isProtocolResp = false :=
  ⟨rfl, rfl, rfl⟩

/-- C4 (amended): when the interactive selector returns successfully with no
region, start surfaces the cancellation as the transport-level error message
"You cancel it" (distinguished from backend errors only by that message),
not as a protocol-level response; only that pending start call is affected —
the state is unchanged and no worker action happens. -/
theorem c4_cancellation_transport_error (env : StartEnv) (st : PState)
    (handle : String) (sess : Session) (outputs : List Output)
    (hnb : st.castSessions.find? (fun s => s.1 == handle) = none)
    (hfound : st.sessions.find? (fun s => s.handle_path == handle) = some sess)
    (htype : sess.session_type = SessionType.ScreenCast)
    (hc : env.connection = .ok outputs)
    (ha : env.get_area = .ok none) :
    start env st handle = (.err "You cancel it", st, []) := by
  have hcc : startCastCheck st handle = none := by
    unfold startCastCheck
    rw [hnb]
  have hsc : startSessionCheck st handle = some sess := by
    unfold startSessionCheck
    rw [hfound]
    simp [htype]
  have hb : startBlocking env sess handle = (.err "You cancel it", none, []) := by
    unfold startBlocking
    rw [hc, ha]
  simp [start, hcc, hsc, hb]

/-- C4 witness: on the registered screencast session "s" with no binding,
cancellation in the selector makes start return the "You cancel it"
transport error and leaves the state unchanged. -/
theorem c4_cancellation_transport_error_witness :
    start envCancel exState "s" = (.err "You cancel it", exState, []) :=
  c4_cancellation_transport_error envCancel exState "s" exSession [exOutput0]
    rfl rfl rfl rfl rfl

/-- C5 counterexample: when creating the wayland connection for output
enumeration fails, start `.unwrap()`s the error and panics — the outcome is
neither a protocol response nor a transport error — refuting the claim that
no failure is fatal and that an output-enumeration failure is surfaced as a
backend failure. -/
theorem c5_enumeration_failure_panics :
    (start envConnFail exState "s").1 = RpcOutcome.panicked
    ∧ (start envConnFail exState "s").1.isProtocolResp = false
    ∧ (start envConnFail exState "s").1.isTransportErr = false :=
  ⟨rfl, rfl, rfl⟩

/-- C5 (amended): provided the wayland connection for output enumeration is
created successfully, no failure path of start is fatal: the selector
failing, the user cancelling, the matcher finding nothing and the worker
failing to start all return a structured outcome, never a panic. A failure
to create the connection itself, however, panics the process. -/
theorem c5_no_panic_when_connection_succeeds (env : StartEnv) (st : PState)
    (handle : String) (outputs : List Output)
    (hc : env.connection = .ok outputs) :
    (start env st handle).1 ≠ RpcOutcome.panicked := by
  intro h
  rcases hcc : startCastCheck st handle with _ | r0
  · rcases hs : startSessionCheck st handle with _ | sess
    · simp [start, hcc, hs] at h
    · rcases hb : startBlocking env sess handle with ⟨outcome, ob, tr⟩
      have hno := startBlocking_no_panic env sess handle outputs hc
      rcases ob with _ | binding
      · have h1 : start env st handle = (outcome, st, tr) := by
          simp [start, hcc, hs, hb]
        rw [h1] at h
        exact hno none tr (by rw [hb, show outcome = RpcOutcome.panicked from h])
      · have h1 : start env st handle =
            (outcome, append_cast_session st binding, tr) := by
          simp [start, hcc, hs, hb]
        rw [h1] at h
        exact hno (some binding) tr
          (by rw [hb, show outcome = RpcOutcome.panicked from h])
  · simp [start, hcc] at h

/-- C5 witness: with a working connection enumerating one output, start on the
registered session does not panic. -/
theorem c5_no_panic_when_connection_succeeds_witness :
    (start envOk exState "s").1 ≠ RpcOutcome.panicked :=
  c5_no_panic_when_connection_succeeds envOk exState "s" [exOutput0] rfl

/-- C6: the output matcher returns the first output of the enumerated list
whose reported top-left position exactly equals the selected coordinate, and
returns nothing exactly when no output's position equals it; in particular,
for outputs at (0,0) and (1920,0) selection (1920,0) yields the second
output and selection (5,5) yields no match. -/
theorem c6_output_matcher_first_exact_match :
    (∀ (outputs : List Output) (x y : Int) (o : Output),
      outputMatcher outputs x y = some o →
        ∃ l1 l2, outputs = l1 ++ o :: l2 ∧ o.dimensions.x = x ∧ o.dimensions.y = y ∧
          ∀ o' ∈ l1, ¬(o'.dimensions.x = x ∧ o'.dimensions.y = y))
    ∧ (∀ (outputs : List Output) (x y : Int),
      outputMatcher outputs x y = none ↔
        ∀ o ∈ outputs, ¬(o.dimensions.x = x ∧ o.dimensions.y = y))
    ∧ outputMatcher [exOutput0, exOutput1] 1920 0 = some exOutput1
    ∧ outputMatcher [exOutput0, exOutput1] 5 5 = none := by
  refine ⟨?_, ?_, by decide, by decide⟩
  · intro outputs x y o h
    obtain ⟨l1, l2, hl, hfalse, hp⟩ :=
      find?_first_decomp (fun o => o.dimensions.x == x && o.dimensions.y == y) outputs o
        (by rw [outputMatcher] at h; exact h)
    have hp' : o.dimensions.x = x ∧ o.dimensions.y = y := by
      simpa [Bool.and_eq_true, beq_iff_eq] using hp
    refine ⟨l1, l2, hl, hp'.1, hp'.2, ?_⟩
    · intro o' ho' hcontra
      have := hfalse o' ho'
      simp [hcontra.1, hcontra.2] at this
  · intro outputs x y
    rw [outputMatcher, List.find?_eq_none]
    constructor
    · intro h o ho hcontra
      exact h o ho (by simp [hcontra.1, hcontra.2])
    · intro h o ho hp
      exact h o ho (by simpa using hp)

/-- C6 witness: instantiating the first-match characterization on the
two-output example at selection (1920, 0): the list splits before the second
output and no earlier output sits at (1920, 0). -/
theorem c6_output_matcher_first_exact_match_witness :
    ∃ l1 l2, [exOutput0, exOutput1] = l1 ++ exOutput1 :: l2 ∧
      exOutput1.dimensions.x = 1920 ∧ exOutput1.dimensions.y = 0 ∧
      ∀ o' ∈ l1, ¬(o'.dimensions.x = 1920 ∧ o'.dimensions.y = 0) :=
  c6_output_matcher_first_exact_match.1 [exOutput0, exOutput1] 1920 0 exOutput1 rfl

/-- C7: select_sources on a handle absent from the session registry returns
`Ok(PortalResponse::Other)` — a structured response on the success channel,
not an error — and leaves the whole state (both registries) unchanged. -/
theorem c7_select_sources_absent_handle (st : PState) (handle : String)
    (opts : SelectSourcesOptions)
    (habs : ∀ s ∈ st.sessions, s.handle_path ≠ handle) :
    select_sources st handle opts = (.resp .Other, st) := by
  have hnone : setOptionsFirst handle opts st.sessions = none :=
    setOptionsFirst_not_found handle opts st.sessions
      (fun s hs => by simpa using habs s hs)
  simp [select_sources, hnone]

/-- C7 witness: selecting sources for the unregistered handle "t" returns the
not-applicable response and leaves the state unchanged. -/
theorem c7_select_sources_absent_handle_witness :
    select_sources exState "t" exOptions = (.resp .Other, exState) :=
  c7_select_sources_absent_handle exState "t" exOptions (by decide)

/-- C8: a start call on a handle with no cast binding returns the
not-applicable response `Ok(PortalResponse::Other)`, starts no worker (the
event trace is empty) and inserts no binding (the state is unchanged),
whenever the handle is absent from the session registry or the session found
is not a screencast session. -/
theorem c8_start_session_not_applicable (env : StartEnv) (st : PState)
    (handle : String)
    (hnb : st.castSessions.find? (fun s => s.1 == handle) = none)
    (hsess : st.sessions.find? (fun s => s.handle_path == handle) = none ∨
      ∃ sess, st.sessions.find? (fun s => s.handle_path == handle) = some sess ∧
        sess.session_type ≠ SessionType.ScreenCast) :
    start env st handle = (.resp .Other, st, []) := by
  have hcc : startCastCheck st handle = none := by
    unfold startCastCheck
    rw [hnb]
  have hsc : startSessionCheck st handle = none := by
    rcases hsess with h | ⟨sess, hfind, hty⟩
    · unfold startSessionCheck
      rw [h]
    · unfold startSessionCheck
      rw [hfind]
      simp [hty]
  simp [start, hcc, hsc]

/-- C8 witness: start on the unregistered handle "t" (no binding, no session)
returns the not-applicable response with the state unchanged and no worker
event. -/
theorem c8_start_session_not_applicable_witness :
    start envOk exState "t" = (.resp .Other, exState, []) :=
  c8_start_session_not_applicable envOk exState "t" rfl (Or.inl rfl)

/-- C10: every success response of start carries exactly one stream whose
properties are all unset, with persist_mode 0 and no restore token — both
from an arbitrary state and from the state produced by a preceding
select_sources with arbitrary options (so the stored persist_mode and
restore_token never reach the response). -/
theorem c10_start_success_stream_shape (env : StartEnv) (st : PState)
    (handle : String) (opts : SelectSourcesOptions) (r : StartReturnValue) :
    ((start env st handle).1 = .resp (.Success r) →
      r.streams.length = 1 ∧ (∀ s ∈ r.streams, s.properties = {}) ∧
      r.persist_mode = 0 ∧ r.restore_token = none)
    ∧ ((start env (select_sources st handle opts).2 handle).1 = .resp (.Success r) →
      r.streams.length = 1 ∧ (∀ s ∈ r.streams, s.properties = {}) ∧
      r.persist_mode = 0 ∧ r.restore_token = none) := by
  have main : ∀ st' : PState, (start env st' handle).1 = .resp (.Success r) →
      r.streams.length = 1 ∧ (∀ s ∈ r.streams, s.properties = {}) ∧
      r.persist_mode = 0 ∧ r.restore_token = none := by
    intro st' h
    rcases hcc : startCastCheck st' handle with _ | r0
    · rcases hs : startSessionCheck st' handle with _ | sess
      · simp [start, hcc, hs] at h
      · rcases hb : startBlocking env sess handle with ⟨outcome, ob, tr⟩
        rcases ob with _ | binding
        · have h1 : start env st' handle = (outcome, st', tr) := by
            simp [start, hcc, hs, hb]
          rw [h1] at h
          have hout : outcome = .resp (.Success r) := h
          subst hout
          obtain ⟨ct, hr⟩ := startBlocking_success_shape env sess handle r none tr hb
          subst hr
          simp
        · have h1 : start env st' handle =
              (outcome, append_cast_session st' binding, tr) := by
            simp [start, hcc, hs, hb]
          rw [h1] at h
          have hout : outcome = .resp (.Success r) := h
          subst hout
          obtain ⟨ct, hr⟩ :=
            startBlocking_success_shape env sess handle r (some binding) tr hb
          subst hr
          simp
    · have h1 : start env st' handle = (.resp (.Success r0), st', []) := by
        simp [start, hcc]
      rw [h1] at h
      have hr0 : r0 = r := by
        have : RpcOutcome.resp (PortalResponse.Success r0) =
            RpcOutcome.resp (PortalResponse.Success r) := h
        injection this with h2
        injection h2
      subst hr0
      obtain ⟨e, -, hr⟩ := startCastCheck_shape st' handle r0 hcc
      subst hr
      simp
  exact ⟨main st, main (select_sources st handle opts).2⟩

/-- C10 witness: a successful start after selecting sources with an explicit
persist mode 2 and restore token still returns one stream with unset
properties, persist_mode 0 and no restore token. -/
theorem c10_start_success_stream_shape_witness :
    (({ streams := [⟨42, {}⟩], persist_mode := 0,
        restore_token := none } : StartReturnValue).streams.length = 1
      ∧ (∀ s ∈ ({ streams := [⟨42, {}⟩], persist_mode := 0,
                  restore_token := none } : StartReturnValue).streams,
          s.properties = {})
      ∧ ({ streams := [⟨42, {}⟩], persist_mode := 0,
           restore_token := none } : StartReturnValue).persist_mode = 0
      ∧ ({ streams := [⟨42, {}⟩], persist_mode := 0,
           restore_token := none } : StartReturnValue).restore_token = none) :=
  (c10_start_success_stream_shape envOk exState "s" exOptions
    { streams := [⟨42, {}⟩], persist_mode := 0, restore_token := none }).2 rfl

/-- The alternating schedule of two start calls on the same handle: both
tasks run their idempotency check and session lookup, then both run the
blocking tail, then each appends — the second append happening after the
first task's binding is already in the registry. -/
def raceSchedule : List Bool := [true, false, true, false, true, false, true, false]

/-- C1 counterexample: two start calls for handle "s", interleaved around the
blocking interactive-selection step by `raceSchedule`, each pass the
idempotency check while the registry is empty and each append a binding:
after seven steps (up to and including the first task's append) one binding
for "s" exists, and the second task's append then inserts a second binding —
refuting that at most one Cast Binding per handle exists at any instant and
that start never inserts a second binding for an already-bound handle. -/
theorem c1_interleaved_start_inserts_second_binding :
    bindingCount (runTwo envOk (raceSchedule.take 7)
      (exState, Task.fresh "s", Task.fresh "s")).1 "s" = 1
    ∧ bindingCount (runTwo envOk raceSchedule
      (exState, Task.fresh "s", Task.fresh "s")).1 "s" = 2 :=
  ⟨rfl, rfl⟩

/-- C1 (amended): in sequential executions — each start call running atomically
from its idempotency check to its append — the invariant holds: if every
handle has at most one binding before a start call, every handle has at most
one binding after it, because a start on a bound handle returns early
without inserting and a start on an unbound handle inserts at most one
binding. (Interleaved around the blocking selection step, two start calls
on the same handle can still insert two bindings: the code does not re-check
the registry before the final insert.) -/
theorem c1_sequential_start_preserves_at_most_one_binding (env : StartEnv)
    (st : PState) (handle : String)
    (hinv : ∀ g, bindingCount st g ≤ 1) :
    ∀ g, bindingCount (start env st handle).2.1 g ≤ 1 := by
  intro g
  rcases hcc : startCastCheck st handle with _ | r0
  · have hfind : st.castSessions.find? (fun s => s.1 == handle) = none := by
      rcases hf : st.castSessions.find? (fun s => s.1 == handle) with _ | e
      · exact hf
      · unfold startCastCheck at hcc
        rw [hf] at hcc
        exact absurd hcc (by simp)
    have hcount0 : bindingCount st handle = 0 := by
      unfold bindingCount
      rw [List.length_eq_zero, List.filter_eq_nil_iff]
      exact List.find?_eq_none.mp hfind
    rcases hs : startSessionCheck st handle with _ | sess
    · have h1 : start env st handle = (.resp .Other, st, []) := by
        simp [start, hcc, hs]
      rw [h1]
      exact hinv g
    · rcases hb : startBlocking env sess handle with ⟨outcome, ob, tr⟩
      rcases ob with _ | binding
      · have h1 : start env st handle = (outcome, st, tr) := by
          simp [start, hcc, hs, hb]
        rw [h1]
        exact hinv g
      · have hbf : binding.1 = handle :=
          startBlocking_binding_fst env sess handle outcome binding tr hb
        have h1 : start env st handle =
            (outcome, append_cast_session st binding, tr) := by
          simp [start, hcc, hs, hb]
        rw [h1]
        show bindingCount (append_cast_session st binding) g ≤ 1
        rw [bindingCount_append]
        by_cases hg : g = handle
        · subst hg
          rw [hcount0, hbf]
          simp
        · have hne : (binding.1 == g) = false := by
            rw [hbf]
            simpa using fun hcontra => hg hcontra.symm
          rw [hne]
          simpa using hinv g
  · have h1 : start env st handle = (.resp (.Success r0), st, []) := by
      simp [start, hcc]
    rw [h1]
    exact hinv g

/-- C1 witness: a single sequential start on the empty cast registry leaves at
most one binding for "s". -/
theorem c1_sequential_start_preserves_at_most_one_binding_witness :
    bindingCount (start envOk exState "s").2.1 "s" ≤ 1 :=
  c1_sequential_start_preserves_at_most_one_binding envOk exState "s"
    (fun _ => Nat.zero_le 1) "s"

/-- C3 counterexample: tearing down the binding of handle "s" produces the
event order worker-stop then entry-removal — the stop is invoked while the
entry is still in the registry map — refuting the claim that stop is invoked
after the entry has been removed (no index of a removal event precedes an
index of a stop event in the trace). -/
theorem c3_stop_is_invoked_before_removal :
    (remove_cast_session exBoundState "s").2 =
      [Event.workerStop { node_id := 42 }, Event.entryRemoved "s"]
    ∧ ¬ stopAfterRemoval (remove_cast_session exBoundState "s").2 "s"
        { node_id := 42 } := by
  have htr : (remove_cast_session exBoundState "s").2 =
      [Event.workerStop { node_id := 42 }, Event.entryRemoved "s"] := rfl
  refine ⟨htr, ?_⟩
  rintro ⟨i, j, hij, hi, hj⟩
  rw [htr] at hi hj
  rcases i with _ | _ | i <;> rcases j with _ | _ | j <;> simp_all

/-- C3 (amended): in the removal of a present binding, the worker's stop is
invoked before (not after) the binding's entry is removed — the trace is
exactly stop followed by removal — and both happen before the operation
returns; because the whole operation runs under one acquisition of the
registry lock, concurrent readers observe only the pre-state or the
post-state, never the intermediate one. -/
theorem c3_stop_then_remove_before_return (st : PState) (handle : String)
    (e : CastSessionData)
    (hfind : st.castSessions.find? (fun s => s.1 == handle) = some e) :
    (remove_cast_session st handle).2 =
      [Event.workerStop e.2, Event.entryRemoved handle] := by
  obtain ⟨l1, l2, hl, hfalse, hp, hrm⟩ :=
    removeCastFrom_of_find? handle st.castSessions e hfind
  simp [remove_cast_session, hrm]

/-- C3 witness: removing the binding of "s" yields the stop-then-remove
trace. -/
theorem c3_stop_then_remove_before_return_witness :
    (remove_cast_session exBoundState "s").2 =
      [Event.workerStop { node_id := 42 }, Event.entryRemoved "s"] :=
  c3_stop_then_remove_before_return exBoundState "s" ("s", { node_id := 42 }) rfl

/-- C9: tearing down a session whose handle has exactly one cast binding
invokes that binding's worker stop exactly once (the trace holds exactly one
stop event, for that worker), and afterwards a lookup of the handle in the
cast registry finds nothing; teardown of a handle with no binding is a no-op:
no event at all and the state unchanged. -/
theorem c9_teardown_stops_once_then_lookup_empty (st : PState) (handle : String)
    (e : CastSessionData) :
    (st.castSessions.find? (fun s => s.1 == handle) = some e →
      bindingCount st handle = 1 →
      (remove_cast_session st handle).2.filter Event.isStop =
          [Event.workerStop e.2]
        ∧ (remove_cast_session st handle).1.castSessions.find?
            (fun s => s.1 == handle) = none)
    ∧ (st.castSessions.find? (fun s => s.1 == handle) = none →
      remove_cast_session st handle = (st, [])) := by
  constructor
  · intro hfind hcount
    obtain ⟨l1, l2, hl, hfalse, hp, hrm⟩ :=
      removeCastFrom_of_find? handle st.castSessions e hfind
    have hfil1 : l1.filter (fun s => s.1 == handle) = [] := by
      rw [List.filter_eq_nil_iff]
      intro s hs
      simp [hfalse s hs]
    have hfil2 : l2.filter (fun s => s.1 == handle) = [] := by
      have hsum : bindingCount st handle =
          (l1.filter (fun s => s.1 == handle)).length + 1 +
            (l2.filter (fun s => s.1 == handle)).length := by
        simp [bindingCount, hl, List.filter_append, List.filter, hp]
        omega
      rw [hcount, hfil1] at hsum
      simpa [List.length_eq_zero] using hsum.symm
    constructor
    · simp [remove_cast_session, hrm, List.filter, Event.isStop]
    · have hstate : (remove_cast_session st handle).1.castSessions = l1 ++ l2 := by
        simp [remove_cast_session, hrm]
      rw [hstate, List.find?_eq_none]
      intro s hs
      rcases List.mem_append.mp hs with h1 | h2
      · simp [hfalse s h1]
      · have := List.filter_eq_nil_iff.mp hfil2 s h2
        simpa using this
  · intro hnone
    have hall : ∀ s ∈ st.castSessions, (s.1 == handle) = false := by
      intro s hs
      have := List.find?_eq_none.mp hnone s hs
      simpa using this
    have := removeCastFrom_not_found handle st.castSessions hall
    simp [remove_cast_session, this]

/-- C9 witness: on the state binding "s" to node id 42, teardown stops that
worker exactly once and the subsequent lookup of "s" finds nothing. -/
theorem c9_teardown_stops_once_then_lookup_empty_witness :
    (remove_cast_session exBoundState "s").2.filter Event.isStop =
        [Event.workerStop { node_id := 42 }]
      ∧ (remove_cast_session exBoundState "s").1.castSessions.find?
          (fun s => s.1 == "s") = none :=
  (c9_teardown_stops_once_then_lookup_empty exBoundState "s"
    ("s", { node_id := 42 })).1 rfl rfl

end Screencast
